import Mathlib

/-!
Verification of the InForce ROI calculator.

Shallow embedding of the calculation core of `src/js/calculator.js` and the
productivity-curve generator of `src/js/chart.js`.

Modelling conventions:
* JavaScript numbers are modelled as exact rationals (`ℚ`); the decimal
  literals of the source (`0.05`, `0.30`, `0.5`, ...) are exact rationals.
* The object-property lookup `this.rampUpTimelines[this.experienceLevel]`
  yields `undefined` for a key outside the table; every arithmetic operation
  on `undefined`/`NaN` yields `NaN` in JavaScript.  We model this with
  `Option ℚ`: `none` stands for the non-numeric result (NaN), and the
  derived getters propagate `none` exactly as JavaScript propagates NaN
  (in particular `0 * NaN = NaN`, and `NaN === 0` is false in the
  `savingsPercentage` guard).  Getters whose JavaScript value is always an
  ordinary finite number on finite numeric inputs (`idleTimeCost`,
  `onboardingCost`, the turnover-event counts) are modelled directly in `ℚ`
  resp. `ℤ`.
* `Math.round` rounds half toward positive infinity: `⌊x + 1/2⌋`.
-/

/-- JavaScript `Math.round`: rounds to the nearest integer, ties at `.5`
toward positive infinity. -/
def jsRound (x : ℚ) : ℤ := ⌊x + 1/2⌋

/-- The user-controlled input fields of the calculator state
(`src/js/calculator.js` lines 14-17). -/
structure Calculator where
  hourlyRate : ℚ
  teamSize : ℚ
  projectDuration : ℚ
  experienceLevel : String
deriving DecidableEq

namespace Calculator

/-- Static assumption: InForce annual turnover rate (5%). -/
def inForceTurnover : ℚ := 0.05

/-- Static assumption: competitor annual turnover rate (30%). -/
def competitorTurnover : ℚ := 0.30

/-- Static assumption: vacancy period, weeks. -/
def vacancyWeeks : ℚ := 2

/-- Static assumption: payment fraction during vacancy. -/
def vacancyPayment : ℚ := 1.0

/-- Static assumption: onboarding duration, days. -/
def onboardingDays : ℚ := 5

/-- Static assumption: payment fraction during onboarding. -/
def onboardingPayment : ℚ := 1.0

/-- The `rampUpTimelines` object: days to full productivity by experience
level.  A key outside the table yields `undefined`, modelled as `none`. -/
def rampUpTimelines (level : String) : Option ℚ :=
  if level = "junior" then some 60
  else if level = "mixed" then some 45
  else if level = "senior" then some 30
  else none

/-- Getter `hoursPerWeek`. -/
def hoursPerWeek : ℚ := 40

/-- Getter `weeksPerYear`. -/
def weeksPerYear : ℚ := 52

/-- Getter `rampUpDays = this.rampUpTimelines[this.experienceLevel]`;
`none` models the `undefined` of a missing key. -/
def rampUpDays (c : Calculator) : Option ℚ :=
  rampUpTimelines c.experienceLevel

/-- Getter `competitorTurnoverEvents`:
`Math.round(competitorTurnover * teamSize * (projectDuration / 12))`. -/
def competitorTurnoverEvents (c : Calculator) : ℤ :=
  jsRound (competitorTurnover * c.teamSize * (c.projectDuration / 12))

/-- Getter `inforceTurnoverEvents`:
`Math.round(inForceTurnover * teamSize * (projectDuration / 12))`. -/
def inforceTurnoverEvents (c : Calculator) : ℤ :=
  jsRound (inForceTurnover * c.teamSize * (c.projectDuration / 12))

/-- Getter `idleTimeCost = vacancyWeeks * hoursPerWeek * hourlyRate *
vacancyPayment`.  Always an ordinary number on numeric inputs. -/
def idleTimeCost (c : Calculator) : ℚ :=
  vacancyWeeks * hoursPerWeek * c.hourlyRate * vacancyPayment

/-- Getter `onboardingCost = (onboardingDays / 5) * hoursPerWeek *
hourlyRate * onboardingPayment`. -/
def onboardingCost (c : Calculator) : ℚ :=
  onboardingDays / 5 * hoursPerWeek * c.hourlyRate * onboardingPayment

/-- Getter `rampUpCost = (rampUpDays / 5) * hoursPerWeek * hourlyRate *
(1 - 0.5)`; NaN (from an invalid experience level) propagates. -/
def rampUpCost (c : Calculator) : Option ℚ :=
  (rampUpDays c).map fun d => d / 5 * hoursPerWeek * c.hourlyRate * (1 - 0.5)

/-- Getter `costPerEvent = idleTimeCost + onboardingCost + rampUpCost`. -/
def costPerEvent (c : Calculator) : Option ℚ :=
  (rampUpCost c).map fun rc => idleTimeCost c + onboardingCost c + rc

/-- Getter `competitorTotal = competitorTurnoverEvents * costPerEvent`. -/
def competitorTotal (c : Calculator) : Option ℚ :=
  (costPerEvent c).map fun cp => (competitorTurnoverEvents c : ℚ) * cp

/-- Getter `inforceTotal = inforceTurnoverEvents * costPerEvent`. -/
def inforceTotal (c : Calculator) : Option ℚ :=
  (costPerEvent c).map fun cp => (inforceTurnoverEvents c : ℚ) * cp

/-- Getter `savings = competitorTotal - inforceTotal`; the difference of a
NaN operand is NaN. -/
def savings (c : Calculator) : Option ℚ :=
  match competitorTotal c, inforceTotal c with
  | some a, some b => some (a - b)
  | _, _ => none

/-- Getter `savingsPercentage`:
`if (competitorTotal === 0) return 0; return savings / competitorTotal * 100`.
`NaN === 0` is false in JavaScript, so a NaN `competitorTotal` falls through
to the division and produces NaN (`none`). -/
def savingsPercentage (c : Calculator) : Option ℚ :=
  match competitorTotal c with
  | none => none
  | some ct =>
    if ct = 0 then some 0
    else (savings c).map fun s => s / ct * 100

/-- Getter `projectBudget = teamSize * hoursPerWeek * (projectDuration *
4.33) * hourlyRate`. -/
def projectBudget (c : Calculator) : ℚ :=
  c.teamSize * hoursPerWeek * (c.projectDuration * 4.33) * c.hourlyRate

end Calculator

/-- Function `generateProductivityCurve` of `src/js/chart.js`: thirteen productivity
percentages for weeks 0 through 12; weeks below 3 give 0, and from week 3
on the value is `Math.min(100, (week - 3) / rampUpWeeks * 100)`. -/
def generateProductivityCurve (rampUpWeeks : ℚ) : List ℚ :=
  (List.range 13).map fun (week : ℕ) =>
    if week < 2 then 0
    else if week < 3 then 0
    else min 100 (((week : ℚ) - 3) / rampUpWeeks * 100)

/-- The default calculator state of the source: rate 200, team 12,
duration 18 months, mixed experience. -/
def defaultCalc : Calculator := ⟨200, 12, 18, "mixed"⟩

/-- A calculator state with an experience level outside the configured
enum. -/
def expertCalc : Calculator := ⟨200, 12, 18, "expert"⟩

namespace Calculator

lemma rampUpTimelines_junior : rampUpTimelines "junior" = some 60 := rfl

lemma rampUpTimelines_mixed : rampUpTimelines "mixed" = some 45 := rfl

lemma rampUpTimelines_senior : rampUpTimelines "senior" = some 30 := rfl

/-- The lookup succeeds exactly on the three configured keys. -/
lemma rampUpTimelines_isSome_iff (level : String) :
    (rampUpTimelines level).isSome ↔
      level = "junior" ∨ level = "mixed" ∨ level = "senior" := by
  unfold rampUpTimelines
  split_ifs with h1 h2 h3 <;> simp_all

/-- A successful lookup yields one of the three configured day counts. -/
lemma rampUpTimelines_cases {level : String} {d : ℚ}
    (h : rampUpTimelines level = some d) : d = 60 ∨ d = 45 ∨ d = 30 := by
  unfold rampUpTimelines at h
  split_ifs at h <;> simp_all

lemma rampUpTimelines_pos {level : String} {d : ℚ}
    (h : rampUpTimelines level = some d) : 0 < d := by
  rcases rampUpTimelines_cases h with h' | h' | h' <;> rw [h'] <;> norm_num

lemma rampUpCost_some {c : Calculator} {d : ℚ}
    (h : rampUpTimelines c.experienceLevel = some d) :
    rampUpCost c = some (d / 5 * 40 * c.hourlyRate * (1 - 0.5)) := by
  simp [rampUpCost, rampUpDays, h, hoursPerWeek]

lemma idleTimeCost_eq (c : Calculator) : idleTimeCost c = 80 * c.hourlyRate := by
  unfold idleTimeCost vacancyWeeks hoursPerWeek vacancyPayment; ring

lemma onboardingCost_eq (c : Calculator) : onboardingCost c = 40 * c.hourlyRate := by
  unfold onboardingCost onboardingDays hoursPerWeek onboardingPayment; ring

/-- On a valid experience level, the cost per event is the linear function
`(120 + 4 * rampUpDays) * hourlyRate` of the hourly rate. -/
lemma costPerEvent_some {c : Calculator} {d : ℚ}
    (h : rampUpTimelines c.experienceLevel = some d) :
    costPerEvent c = some ((120 + 4 * d) * c.hourlyRate) := by
  simp [costPerEvent, rampUpCost_some h, idleTimeCost_eq, onboardingCost_eq]
  ring

lemma competitorTotal_some {c : Calculator} {d : ℚ}
    (h : rampUpTimelines c.experienceLevel = some d) :
    competitorTotal c =
      some ((competitorTurnoverEvents c : ℚ) * ((120 + 4 * d) * c.hourlyRate)) := by
  simp [competitorTotal, costPerEvent_some h]

lemma inforceTotal_some {c : Calculator} {d : ℚ}
    (h : rampUpTimelines c.experienceLevel = some d) :
    inforceTotal c =
      some ((inforceTurnoverEvents c : ℚ) * ((120 + 4 * d) * c.hourlyRate)) := by
  simp [inforceTotal, costPerEvent_some h]

lemma savings_some {c : Calculator} {d : ℚ}
    (h : rampUpTimelines c.experienceLevel = some d) :
    savings c =
      some ((competitorTurnoverEvents c : ℚ) * ((120 + 4 * d) * c.hourlyRate) -
        (inforceTurnoverEvents c : ℚ) * ((120 + 4 * d) * c.hourlyRate)) := by
  rw [savings, competitorTotal_some h, inforceTotal_some h]

lemma savingsPercentage_some {c : Calculator} {ct : ℚ} (h : competitorTotal c = some ct) :
    savingsPercentage c =
      if ct = 0 then some 0 else (savings c).map fun s => s / ct * 100 := by
  rw [savingsPercentage, h]

end Calculator

namespace Calculator

lemma defaultCalc_competitorEvents : competitorTurnoverEvents defaultCalc = 5 := by
  norm_num [competitorTurnoverEvents, competitorTurnover, defaultCalc, jsRound]

lemma defaultCalc_inforceEvents : inforceTurnoverEvents defaultCalc = 1 := by
  norm_num [inforceTurnoverEvents, inForceTurnover, defaultCalc, jsRound]

lemma defaultCalc_competitorTotal : competitorTotal defaultCalc = some 300000 := by
  rw [competitorTotal_some (c := defaultCalc) rampUpTimelines_mixed,
    defaultCalc_competitorEvents]
  norm_num [defaultCalc]

lemma defaultCalc_inforceTotal : inforceTotal defaultCalc = some 60000 := by
  rw [inforceTotal_some (c := defaultCalc) rampUpTimelines_mixed, defaultCalc_inforceEvents]
  norm_num [defaultCalc]

lemma defaultCalc_savings : savings defaultCalc = some 240000 := by
  rw [savings, defaultCalc_competitorTotal, defaultCalc_inforceTotal]
  norm_num

lemma defaultCalc_savingsPercentage : savingsPercentage defaultCalc = some 80 := by
  rw [savingsPercentage, defaultCalc_competitorTotal]
  norm_num [defaultCalc_savings]

end Calculator

/-- C1, counterexample: At the documented inputs (rate 200, team 12,
18 months, mixed) the code yields a competitor total of exactly $300,000,
an InForce total of $60,000 and savings of $240,000 — not the claimed
approximately $332,000 / $66,400 / $265,600; the gap ($32,000 on the
competitor total) is far outside any rounding tolerance. -/
theorem c1_counterexample :
    Calculator.competitorTotal defaultCalc = some 300000 ∧
    Calculator.inforceTotal defaultCalc = some 60000 ∧
    Calculator.savings defaultCalc = some 240000 ∧
    ¬ ((332000 : ℚ) - 1000 ≤ (Calculator.competitorTotal defaultCalc).getD 0 ∧
      (Calculator.competitorTotal defaultCalc).getD 0 ≤ (332000 : ℚ) + 1000) :=
  ⟨Calculator.defaultCalc_competitorTotal, Calculator.defaultCalc_inforceTotal,
    Calculator.defaultCalc_savings, by
      rw [Calculator.defaultCalc_competitorTotal]; norm_num⟩

/-- C1 (amended): For hourlyRate 200, teamSize 12, projectDuration 18,
experienceLevel mixed, the calculator yields 5 competitor turnover events,
1 InForce event, a competitor total of exactly $300,000, an InForce total
of exactly $60,000, savings of exactly $240,000, and a savings percentage
of exactly 80%. -/
theorem c1_default_scenario :
    Calculator.competitorTurnoverEvents defaultCalc = 5 ∧
    Calculator.inforceTurnoverEvents defaultCalc = 1 ∧
    Calculator.competitorTotal defaultCalc = some 300000 ∧
    Calculator.inforceTotal defaultCalc = some 60000 ∧
    Calculator.savings defaultCalc = some 240000 ∧
    Calculator.savingsPercentage defaultCalc = some 80 :=
  ⟨Calculator.defaultCalc_competitorEvents, Calculator.defaultCalc_inforceEvents,
    Calculator.defaultCalc_competitorTotal, Calculator.defaultCalc_inforceTotal,
    Calculator.defaultCalc_savings, Calculator.defaultCalc_savingsPercentage⟩

/-- C4: Each party's turnover event count is
`Math.round(rate * teamSize * (projectDuration / 12))` with rate 30/100
for the competitor and 5/100 for InForce, and `Math.round` breaks ties at
`.5` toward positive infinity: `jsRound (n + 1/2) = n + 1` for every
integer `n`. -/
theorem c4_turnover_rounding (c : Calculator) :
    Calculator.competitorTurnoverEvents c =
      jsRound ((30 : ℚ) / 100 * c.teamSize * (c.projectDuration / 12)) ∧
    Calculator.inforceTurnoverEvents c =
      jsRound ((5 : ℚ) / 100 * c.teamSize * (c.projectDuration / 12)) ∧
    (∀ n : ℤ, jsRound ((n : ℚ) + 1/2) = n + 1) := by
  refine ⟨?_, ?_, fun n => ?_⟩
  · norm_num [Calculator.competitorTurnoverEvents, Calculator.competitorTurnover]
  · norm_num [Calculator.inforceTurnoverEvents, Calculator.inForceTurnover]
  · have h : ((n : ℚ) + 1/2) + 1/2 = ((n + 1 : ℤ) : ℚ) := by push_cast; ring
    rw [jsRound, h, Int.floor_intCast]

/-- C5: For a valid experience level, the idle-time cost is
`2 * 40 * hourlyRate * 1.0`, the onboarding cost is
`(5 / 5) * 40 * hourlyRate * 1.0`, the ramp-up cost is
`(rampUpDays / 5) * 40 * hourlyRate * (1 - 0.5)` with rampUpDays 60/45/30
for junior/mixed/senior, and the cost per event is the sum of the three. -/
theorem c5_cost_components (c : Calculator) (d : ℚ)
    (hd : Calculator.rampUpTimelines c.experienceLevel = some d) :
    Calculator.idleTimeCost c = 2 * 40 * c.hourlyRate * 1.0 ∧
    Calculator.onboardingCost c = 5 / 5 * 40 * c.hourlyRate * 1.0 ∧
    Calculator.rampUpCost c = some (d / 5 * 40 * c.hourlyRate * (1 - 0.5)) ∧
    Calculator.costPerEvent c = some (Calculator.idleTimeCost c +
      Calculator.onboardingCost c + d / 5 * 40 * c.hourlyRate * (1 - 0.5)) ∧
    (c.experienceLevel = "junior" → d = 60) ∧
    (c.experienceLevel = "mixed" → d = 45) ∧
    (c.experienceLevel = "senior" → d = 30) := by
  refine ⟨rfl, rfl, Calculator.rampUpCost_some hd, ?_, ?_, ?_, ?_⟩
  · simp [Calculator.costPerEvent, Calculator.rampUpCost_some hd, Calculator.hoursPerWeek]
  · intro h; rw [h, Calculator.rampUpTimelines_junior] at hd; exact (Option.some_inj.mp hd).symm
  · intro h; rw [h, Calculator.rampUpTimelines_mixed] at hd; exact (Option.some_inj.mp hd).symm
  · intro h; rw [h, Calculator.rampUpTimelines_senior] at hd; exact (Option.some_inj.mp hd).symm

/-- Witness for C5 at the default state (mixed experience, 45 ramp days). -/
theorem c5_witness :
    Calculator.costPerEvent defaultCalc = some (Calculator.idleTimeCost defaultCalc +
      Calculator.onboardingCost defaultCalc +
      45 / 5 * 40 * defaultCalc.hourlyRate * (1 - 0.5)) :=
  (c5_cost_components defaultCalc 45 rfl).2.2.2.1

/-- A calculator state with an empty team (for the zero-division guard). -/
def zeroTeamCalc : Calculator := ⟨200, 0, 18, "mixed"⟩

namespace Calculator

lemma zeroTeamCalc_competitorTotal : competitorTotal zeroTeamCalc = some 0 := by
  rw [competitorTotal_some (c := zeroTeamCalc) rampUpTimelines_mixed]
  norm_num [competitorTurnoverEvents, competitorTurnover, zeroTeamCalc, jsRound]

lemma defaultCalc_costPerEvent : costPerEvent defaultCalc = some 60000 := by
  rw [costPerEvent_some (c := defaultCalc) rampUpTimelines_mixed]
  norm_num [defaultCalc]

end Calculator

/-- C2, counterexample: With the invalid experience level `"expert"`
the calculator does not fail fast with an `InvalidExperienceLevel` error:
the turnover-event counts and the idle-time cost still evaluate to their
ordinary numeric values, the ramp-up lookup silently yields no value
(`undefined`), and `savingsPercentage` evaluates to NaN rather than
surfacing an error. -/
theorem c2_counterexample :
    Calculator.rampUpDays expertCalc = none ∧
    Calculator.competitorTurnoverEvents expertCalc = 5 ∧
    Calculator.inforceTurnoverEvents expertCalc = 1 ∧
    Calculator.idleTimeCost expertCalc = 16000 ∧
    Calculator.savingsPercentage expertCalc = none := by
  refine ⟨rfl, ?_, ?_, ?_, ?_⟩
  · norm_num [Calculator.competitorTurnoverEvents, Calculator.competitorTurnover, expertCalc,
      jsRound]
  · norm_num [Calculator.inforceTurnoverEvents, Calculator.inForceTurnover, expertCalc, jsRound]
  · norm_num [Calculator.idleTimeCost_eq, expertCalc]
  · simp [Calculator.savingsPercentage, Calculator.competitorTotal, Calculator.costPerEvent,
      Calculator.rampUpCost, Calculator.rampUpDays, Calculator.rampUpTimelines, expertCalc]

/-- C2 (amended): The ramp-up lookup succeeds exactly on the keys
junior, mixed, senior; on a valid key the whole pipeline down to
`savingsPercentage` produces a numeric value (no operation fails), and on
an invalid key the lookup yields no value and `savingsPercentage`
evaluates to NaN — silently, with no error raised and no default
experience level substituted. -/
theorem c2_invalid_level_behaviour (c : Calculator) :
    ((Calculator.rampUpDays c).isSome ↔
      (c.experienceLevel = "junior" ∨ c.experienceLevel = "mixed" ∨
        c.experienceLevel = "senior")) ∧
    (∀ d, Calculator.rampUpDays c = some d →
      ∃ p, Calculator.savingsPercentage c = some p) ∧
    (Calculator.rampUpDays c = none → Calculator.savingsPercentage c = none) := by
  refine ⟨Calculator.rampUpTimelines_isSome_iff c.experienceLevel, fun d hd => ?_, fun h => ?_⟩
  · rw [Calculator.rampUpDays] at hd
    rw [Calculator.savingsPercentage_some (Calculator.competitorTotal_some hd)]
    split_ifs with h0
    · exact ⟨0, rfl⟩
    · rw [Calculator.savings_some hd]
      exact ⟨_, rfl⟩
  · rw [Calculator.rampUpDays] at h
    simp [Calculator.savingsPercentage, Calculator.competitorTotal, Calculator.costPerEvent,
      Calculator.rampUpCost, Calculator.rampUpDays, h]

/-- Witness for C2: the invalid key `"expert"` yields NaN, the valid
default key yields a numeric percentage. -/
theorem c2_witness :
    Calculator.savingsPercentage expertCalc = none ∧
    ∃ p, Calculator.savingsPercentage defaultCalc = some p :=
  ⟨(c2_invalid_level_behaviour expertCalc).2.2 rfl,
    (c2_invalid_level_behaviour defaultCalc).2.1 45 rfl⟩

/-- C6: Each party's total is its event count times the one shared
cost per event, and savings is exactly the difference of the two totals. -/
theorem c6_totals_consistency (c : Calculator) (cp : ℚ)
    (h : Calculator.costPerEvent c = some cp) :
    Calculator.competitorTotal c =
      some ((Calculator.competitorTurnoverEvents c : ℚ) * cp) ∧
    Calculator.inforceTotal c =
      some ((Calculator.inforceTurnoverEvents c : ℚ) * cp) ∧
    Calculator.savings c =
      some ((Calculator.competitorTurnoverEvents c : ℚ) * cp -
        (Calculator.inforceTurnoverEvents c : ℚ) * cp) := by
  refine ⟨?_, ?_, ?_⟩ <;>
    simp [Calculator.competitorTotal, Calculator.inforceTotal, Calculator.savings, h]

/-- Witness for C6 at the default state (cost per event $60,000). -/
theorem c6_witness :
    Calculator.competitorTotal defaultCalc =
      some ((Calculator.competitorTurnoverEvents defaultCalc : ℚ) * 60000) ∧
    Calculator.inforceTotal defaultCalc =
      some ((Calculator.inforceTurnoverEvents defaultCalc : ℚ) * 60000) ∧
    Calculator.savings defaultCalc =
      some ((Calculator.competitorTurnoverEvents defaultCalc : ℚ) * 60000 -
        (Calculator.inforceTurnoverEvents defaultCalc : ℚ) * 60000) :=
  c6_totals_consistency defaultCalc 60000 Calculator.defaultCalc_costPerEvent

/-- C7: When the competitor total is zero the savings percentage is
exactly 0 (a number, not NaN or Infinity); otherwise it is
`savings / competitorTotal * 100`. -/
theorem c7_zero_guard (c : Calculator) (ct : ℚ)
    (h : Calculator.competitorTotal c = some ct) :
    (ct = 0 → Calculator.savingsPercentage c = some 0) ∧
    (ct ≠ 0 → ∀ s, Calculator.savings c = some s →
      Calculator.savingsPercentage c = some (s / ct * 100)) := by
  constructor
  · intro h0
    rw [Calculator.savingsPercentage, h]
    simp [h0]
  · intro h0 s hs
    rw [Calculator.savingsPercentage, h]
    simp [h0, hs]

/-- Witness for C7: a team of zero people gives a zero competitor total
and a savings percentage of exactly 0. -/
theorem c7_witness : Calculator.savingsPercentage zeroTeamCalc = some 0 :=
  (c7_zero_guard zeroTeamCalc 0 Calculator.zeroTeamCalc_competitorTotal).1 rfl

lemma jsRound_mono {x y : ℚ} (h : x ≤ y) : jsRound x ≤ jsRound y :=
  Int.floor_mono (by linarith)

lemma jsRound_nonneg {x : ℚ} (h : 0 ≤ x) : 0 ≤ jsRound x :=
  Int.le_floor.mpr (by push_cast; linarith)

/-- C3, counterexample: For the configured junior ramp-up duration of
12 weeks the curve's final point (week 12) is 75, not 100, and no point of
that curve ever reaches 100%: the curve does not reach 100% at or before
week 12 for all three configured durations. -/
theorem c3_counterexample :
    (generateProductivityCurve 12).getLast? = some 75 ∧
    (100 : ℚ) ∉ generateProductivityCurve 12 := by
  constructor
  · norm_num [generateProductivityCurve, List.range_succ]
  · norm_num [generateProductivityCurve, List.range_succ]

/-- C3 (amended): For every positive rampUpWeeks the curve has exactly
13 points for weeks 0–12; the points at weeks 0, 1 and 2 are 0; the point
at each week `w ≥ 3` is `min 100 ((w - 3) / rampUpWeeks * 100)`; and the
final point (week 12) is exactly 100 when `rampUpWeeks ≤ 9` — which covers
the configured senior (6) and mixed (9) durations but not the junior
duration of 12 weeks, whose curve peaks at 75. -/
theorem c3_curve_shape (r : ℚ) (hr : 0 < r) :
    (generateProductivityCurve r).length = 13 ∧
    (generateProductivityCurve r)[0]? = some 0 ∧
    (generateProductivityCurve r)[1]? = some 0 ∧
    (generateProductivityCurve r)[2]? = some 0 ∧
    (∀ w : ℕ, 3 ≤ w → w ≤ 12 →
      (generateProductivityCurve r)[w]? = some (min 100 (((w : ℚ) - 3) / r * 100))) ∧
    (r ≤ 9 → (generateProductivityCurve r)[12]? = some 100) := by
  refine ⟨?_, ?_, ?_, ?_, fun w h3 h12 => ?_, fun h9 => ?_⟩
  · simp only [generateProductivityCurve, List.length_map, List.length_range]
  · rw [generateProductivityCurve, List.getElem?_map, List.getElem?_range (by omega : 0 < 13)]
    norm_num
  · rw [generateProductivityCurve, List.getElem?_map, List.getElem?_range (by omega : 1 < 13)]
    norm_num
  · rw [generateProductivityCurve, List.getElem?_map, List.getElem?_range (by omega : 2 < 13)]
    norm_num
  · have hw2 : ¬ w < 2 := by omega
    have hw3 : ¬ w < 3 := by omega
    rw [generateProductivityCurve, List.getElem?_map, List.getElem?_range (by omega : w < 13)]
    simp [if_neg hw2, if_neg hw3]
  · rw [generateProductivityCurve, List.getElem?_map, List.getElem?_range (by omega : 12 < 13)]
    have h1 : (1 : ℚ) ≤ 9 / r := (one_le_div hr).mpr h9
    norm_num
    exact h1

/-- Witness for C3 at the senior duration of 6 weeks. -/
theorem c3_witness :
    (generateProductivityCurve 6).length = 13 ∧
    (generateProductivityCurve 6)[12]? = some 100 :=
  ⟨(c3_curve_shape 6 (by norm_num)).1,
    (c3_curve_shape 6 (by norm_num)).2.2.2.2.2 (by norm_num)⟩

/-- C8: With all other inputs fixed, a strictly larger hourly rate
gives a strictly larger cost per event, and — as soon as at least one
turnover event occurs for the respective party — strictly larger
competitor and InForce totals. -/
theorem c8_hourlyRate_monotone (r1 r2 ts dur : ℚ) (lvl : String) (d : ℚ)
    (hd : Calculator.rampUpTimelines lvl = some d) (hr : r1 < r2)
    (hce : 1 ≤ Calculator.competitorTurnoverEvents ⟨r1, ts, dur, lvl⟩)
    (hie : 1 ≤ Calculator.inforceTurnoverEvents ⟨r1, ts, dur, lvl⟩) :
    ∃ cp1 cp2 t1 t2 u1 u2,
      Calculator.costPerEvent ⟨r1, ts, dur, lvl⟩ = some cp1 ∧
      Calculator.costPerEvent ⟨r2, ts, dur, lvl⟩ = some cp2 ∧
      Calculator.competitorTotal ⟨r1, ts, dur, lvl⟩ = some t1 ∧
      Calculator.competitorTotal ⟨r2, ts, dur, lvl⟩ = some t2 ∧
      Calculator.inforceTotal ⟨r1, ts, dur, lvl⟩ = some u1 ∧
      Calculator.inforceTotal ⟨r2, ts, dur, lvl⟩ = some u2 ∧
      cp1 < cp2 ∧ t1 < t2 ∧ u1 < u2 := by
  have hdpos := Calculator.rampUpTimelines_pos hd
  have hk : (0 : ℚ) < 120 + 4 * d := by linarith
  have hce1 : (1 : ℚ) ≤ (Calculator.competitorTurnoverEvents ⟨r1, ts, dur, lvl⟩ : ℚ) := by
    exact_mod_cast hce
  have hie1 : (1 : ℚ) ≤ (Calculator.inforceTurnoverEvents ⟨r1, ts, dur, lvl⟩ : ℚ) := by
    exact_mod_cast hie
  have hcp : (120 + 4 * d) * r1 < (120 + 4 * d) * r2 := by nlinarith
  have hee : Calculator.competitorTurnoverEvents (⟨r2, ts, dur, lvl⟩ : Calculator) =
      Calculator.competitorTurnoverEvents ⟨r1, ts, dur, lvl⟩ := rfl
  have hff : Calculator.inforceTurnoverEvents (⟨r2, ts, dur, lvl⟩ : Calculator) =
      Calculator.inforceTurnoverEvents ⟨r1, ts, dur, lvl⟩ := rfl
  refine ⟨_, _, _, _, _, _,
    Calculator.costPerEvent_some (c := ⟨r1, ts, dur, lvl⟩) hd,
    Calculator.costPerEvent_some (c := ⟨r2, ts, dur, lvl⟩) hd,
    Calculator.competitorTotal_some (c := ⟨r1, ts, dur, lvl⟩) hd,
    Calculator.competitorTotal_some (c := ⟨r2, ts, dur, lvl⟩) hd,
    Calculator.inforceTotal_some (c := ⟨r1, ts, dur, lvl⟩) hd,
    Calculator.inforceTotal_some (c := ⟨r2, ts, dur, lvl⟩) hd,
    hcp, ?_, ?_⟩
  · rw [hee]
    exact mul_lt_mul_of_pos_left hcp (by linarith)
  · rw [hff]
    exact mul_lt_mul_of_pos_left hcp (by linarith)

/-- Witness for C8: raising the default rate from 200 to 300. -/
theorem c8_witness :
    ∃ cp1 cp2 t1 t2 u1 u2,
      Calculator.costPerEvent ⟨200, 12, 18, "mixed"⟩ = some cp1 ∧
      Calculator.costPerEvent ⟨300, 12, 18, "mixed"⟩ = some cp2 ∧
      Calculator.competitorTotal ⟨200, 12, 18, "mixed"⟩ = some t1 ∧
      Calculator.competitorTotal ⟨300, 12, 18, "mixed"⟩ = some t2 ∧
      Calculator.inforceTotal ⟨200, 12, 18, "mixed"⟩ = some u1 ∧
      Calculator.inforceTotal ⟨300, 12, 18, "mixed"⟩ = some u2 ∧
      cp1 < cp2 ∧ t1 < t2 ∧ u1 < u2 :=
  c8_hourlyRate_monotone 200 300 12 18 "mixed" 45 rfl (by norm_num)
    (by rw [show Calculator.competitorTurnoverEvents ⟨200, 12, 18, "mixed"⟩ =
        Calculator.competitorTurnoverEvents defaultCalc from rfl,
      Calculator.defaultCalc_competitorEvents]; norm_num)
    (by rw [show Calculator.inforceTurnoverEvents ⟨200, 12, 18, "mixed"⟩ =
        Calculator.inforceTurnoverEvents defaultCalc from rfl,
      Calculator.defaultCalc_inforceEvents])

/-- C9: For non-negative hourlyRate, teamSize and projectDuration and a
valid experience level, the InForce event count never exceeds the
competitor event count, savings is a non-negative number, and the savings
percentage is a number in the closed interval [0, 100]: the calculator can
never report negative savings. -/
theorem c9_savings_invariants (r ts dur : ℚ) (lvl : String) (d : ℚ)
    (hd : Calculator.rampUpTimelines lvl = some d)
    (hr : 0 ≤ r) (hts : 0 ≤ ts) (hdur : 0 ≤ dur) :
    Calculator.inforceTurnoverEvents ⟨r, ts, dur, lvl⟩ ≤
      Calculator.competitorTurnoverEvents ⟨r, ts, dur, lvl⟩ ∧
    (∃ s, Calculator.savings ⟨r, ts, dur, lvl⟩ = some s ∧ 0 ≤ s) ∧
    (∃ p, Calculator.savingsPercentage ⟨r, ts, dur, lvl⟩ = some p ∧
      0 ≤ p ∧ p ≤ 100) := by
  have htd : (0 : ℚ) ≤ ts * (dur / 12) := mul_nonneg hts (div_nonneg hdur (by norm_num))
  have harg_i : (0 : ℚ) ≤ Calculator.inForceTurnover * ts * (dur / 12) := by
    unfold Calculator.inForceTurnover
    nlinarith
  have harg_c : (0 : ℚ) ≤ Calculator.competitorTurnover * ts * (dur / 12) := by
    unfold Calculator.competitorTurnover
    nlinarith
  have hle : Calculator.inForceTurnover * ts * (dur / 12) ≤
      Calculator.competitorTurnover * ts * (dur / 12) := by
    unfold Calculator.inForceTurnover Calculator.competitorTurnover
    nlinarith
  have hev : Calculator.inforceTurnoverEvents (⟨r, ts, dur, lvl⟩ : Calculator) ≤
      Calculator.competitorTurnoverEvents ⟨r, ts, dur, lvl⟩ := jsRound_mono hle
  have hie0 : 0 ≤ Calculator.inforceTurnoverEvents (⟨r, ts, dur, lvl⟩ : Calculator) :=
    jsRound_nonneg harg_i
  have hce0 : 0 ≤ Calculator.competitorTurnoverEvents (⟨r, ts, dur, lvl⟩ : Calculator) :=
    jsRound_nonneg harg_c
  have hdpos := Calculator.rampUpTimelines_pos hd
  have hcp0 : (0 : ℚ) ≤ (120 + 4 * d) * r := mul_nonneg (by linarith) hr
  have hieq : (0 : ℚ) ≤ (Calculator.inforceTurnoverEvents (⟨r, ts, dur, lvl⟩ : Calculator) : ℚ) := by
    exact_mod_cast hie0
  have hceq : (0 : ℚ) ≤ (Calculator.competitorTurnoverEvents (⟨r, ts, dur, lvl⟩ : Calculator) : ℚ) := by
    exact_mod_cast hce0
  have hevq : (Calculator.inforceTurnoverEvents (⟨r, ts, dur, lvl⟩ : Calculator) : ℚ) ≤
      (Calculator.competitorTurnoverEvents (⟨r, ts, dur, lvl⟩ : Calculator) : ℚ) := by
    exact_mod_cast hev
  have hsub : (Calculator.inforceTurnoverEvents (⟨r, ts, dur, lvl⟩ : Calculator) : ℚ) *
        ((120 + 4 * d) * r) ≤
      (Calculator.competitorTurnoverEvents (⟨r, ts, dur, lvl⟩ : Calculator) : ℚ) *
        ((120 + 4 * d) * r) :=
    mul_le_mul_of_nonneg_right hevq hcp0
  refine ⟨hev, ⟨_, Calculator.savings_some (c := ⟨r, ts, dur, lvl⟩) hd, by linarith⟩, ?_⟩
  rw [Calculator.savingsPercentage_some
    (Calculator.competitorTotal_some (c := ⟨r, ts, dur, lvl⟩) hd)]
  split_ifs with h0
  · exact ⟨0, rfl, le_refl 0, by norm_num⟩
  · rw [Calculator.savings_some (c := ⟨r, ts, dur, lvl⟩) hd]
    have hct0 : (0 : ℚ) ≤ (Calculator.competitorTurnoverEvents (⟨r, ts, dur, lvl⟩ : Calculator) : ℚ) *
        ((120 + 4 * d) * r) := mul_nonneg hceq hcp0
    have hctpos : (0 : ℚ) < (Calculator.competitorTurnoverEvents (⟨r, ts, dur, lvl⟩ : Calculator) : ℚ) *
        ((120 + 4 * d) * r) := lt_of_le_of_ne hct0 (Ne.symm h0)
    refine ⟨_, rfl, ?_, ?_⟩
    · have hnum : (0 : ℚ) ≤ (Calculator.competitorTurnoverEvents (⟨r, ts, dur, lvl⟩ : Calculator) : ℚ) *
          ((120 + 4 * d) * r) -
          (Calculator.inforceTurnoverEvents (⟨r, ts, dur, lvl⟩ : Calculator) : ℚ) *
          ((120 + 4 * d) * r) := by linarith
      have := div_nonneg hnum (le_of_lt hctpos)
      nlinarith
    · have hnle : (Calculator.competitorTurnoverEvents (⟨r, ts, dur, lvl⟩ : Calculator) : ℚ) *
          ((120 + 4 * d) * r) -
          (Calculator.inforceTurnoverEvents (⟨r, ts, dur, lvl⟩ : Calculator) : ℚ) *
          ((120 + 4 * d) * r) ≤
          (Calculator.competitorTurnoverEvents (⟨r, ts, dur, lvl⟩ : Calculator) : ℚ) *
          ((120 + 4 * d) * r) := by
        nlinarith
      have hdiv := (div_le_one hctpos).mpr hnle
      nlinarith

/-- Witness for C9 at the default inputs. -/
theorem c9_witness :
    Calculator.inforceTurnoverEvents ⟨200, 12, 18, "mixed"⟩ ≤
      Calculator.competitorTurnoverEvents ⟨200, 12, 18, "mixed"⟩ ∧
    (∃ s, Calculator.savings ⟨200, 12, 18, "mixed"⟩ = some s ∧ 0 ≤ s) ∧
    (∃ p, Calculator.savingsPercentage ⟨200, 12, 18, "mixed"⟩ = some p ∧
      0 ≤ p ∧ p ≤ 100) :=
  c9_savings_invariants 200 12 18 "mixed" 45 rfl (by norm_num) (by norm_num) (by norm_num)

/-- C10: On an experience level outside the configured enum no
operation raises an error: the lookup yields no value, every ramp-dependent
quantity down to the savings percentage evaluates to NaN, while the
idle-time cost, the onboarding cost and both turnover-event counts still
return their ordinary numeric values. -/
theorem c10_nan_propagation (c : Calculator)
    (h1 : c.experienceLevel ≠ "junior") (h2 : c.experienceLevel ≠ "mixed")
    (h3 : c.experienceLevel ≠ "senior") :
    Calculator.rampUpDays c = none ∧
    Calculator.rampUpCost c = none ∧
    Calculator.costPerEvent c = none ∧
    Calculator.competitorTotal c = none ∧
    Calculator.inforceTotal c = none ∧
    Calculator.savings c = none ∧
    Calculator.savingsPercentage c = none ∧
    Calculator.idleTimeCost c = 2 * 40 * c.hourlyRate * 1.0 ∧
    Calculator.onboardingCost c = 5 / 5 * 40 * c.hourlyRate * 1.0 ∧
    Calculator.competitorTurnoverEvents c =
      jsRound ((30 : ℚ) / 100 * c.teamSize * (c.projectDuration / 12)) ∧
    Calculator.inforceTurnoverEvents c =
      jsRound ((5 : ℚ) / 100 * c.teamSize * (c.projectDuration / 12)) := by
  have hnone : Calculator.rampUpTimelines c.experienceLevel = none := by
    unfold Calculator.rampUpTimelines
    rw [if_neg h1, if_neg h2, if_neg h3]
  have hct : Calculator.competitorTotal c = none := by
    simp [Calculator.competitorTotal, Calculator.costPerEvent, Calculator.rampUpCost,
      Calculator.rampUpDays, hnone]
  refine ⟨?_, ?_, ?_, hct, ?_, ?_, ?_, rfl, rfl, ?_, ?_⟩
  · rw [Calculator.rampUpDays, hnone]
  · simp [Calculator.rampUpCost, Calculator.rampUpDays, hnone]
  · simp [Calculator.costPerEvent, Calculator.rampUpCost, Calculator.rampUpDays, hnone]
  · simp [Calculator.inforceTotal, Calculator.costPerEvent, Calculator.rampUpCost,
      Calculator.rampUpDays, hnone]
  · rw [Calculator.savings, hct]
  · rw [Calculator.savingsPercentage, hct]
  · norm_num [Calculator.competitorTurnoverEvents, Calculator.competitorTurnover]
  · norm_num [Calculator.inforceTurnoverEvents, Calculator.inForceTurnover]

/-- Witness for C10 at the key `"expert"`. -/
theorem c10_witness :
    Calculator.rampUpDays expertCalc = none ∧
    Calculator.savingsPercentage expertCalc = none ∧
    Calculator.idleTimeCost expertCalc = 2 * 40 * expertCalc.hourlyRate * 1.0 := by
  have h := c10_nan_propagation expertCalc (by decide) (by decide) (by decide)
  exact ⟨h.1, h.2.2.2.2.2.2.1, h.2.2.2.2.2.2.2.1⟩
